import Mathlib

/-
Verification of the adaptive-routing-system backend against its
natural-language specification.

Shallow embedding of:
  * src/core/middleware.py   (ZimbabweSecurityMiddleware)
  * src/routing/services.py  (GoogleMapsService)
  * src/routing/serializers.py (PointField)
  * src/routing/utils.py     (anonymize_location)
  * src/routing/views.py     (RouteOptimizationView.post, WeatherView.post,
                              simulate_route)
  * src/ai_services/services.py (GeminiService.get_route_insights)

Machine strings are Lean Strings; Python str.split / str.strip are modelled
by the executable helpers below; floats are modelled by rationals; code that
can raise is modelled in Except; external collaborators (Django cache,
Google Maps, Gemini) are modelled by oracle inputs describing the value
they would return or the exception they would raise.
-/

namespace ARS

/-! ## String helpers: models of Python `str.split(sep)` and `str.strip()` -/

/-- Model of Python `str.split(sep)` for a one-character separator, on the
character list of the string: `"a,b" ↦ [['a'],['b']]`, `"" ↦ [[]]`,
`"a,," ↦ [['a'],[],[]]`. -/
def splitChar (sep : Char) : List Char → List (List Char)
  | [] => [[]]
  | c :: rest =>
    let r := splitChar sep rest
    if c = sep then [] :: r
    else
      match r with
      | [] => [[c]]
      | h :: t => (c :: h) :: t

/-- Python `s.split(sep)` as a list of Lean strings. -/
def pySplit (s : String) (sep : Char) : List String :=
  (splitChar sep s.data).map String.mk

/-- Characters of a string with leading and trailing whitespace removed. -/
def trimChars (cs : List Char) : List Char :=
  ((cs.dropWhile Char.isWhitespace).reverse.dropWhile Char.isWhitespace).reverse

/-- Model of Python `str.strip()`. -/
def pyStrip (s : String) : String :=
  String.mk (trimChars s.data)

/-- Numeric value of a list of decimal digit characters. -/
def natOfDigits (cs : List Char) : Nat :=
  cs.foldl (fun a c => a * 10 + (c.toNat - 48)) 0

/-! ## IP parsing and classification (src/core/middleware.py)

`ipaddress.ip_address(ip)` together with the membership test against
`ZIMBABWE_IP_RANGES` is modelled on IPv4 addresses as 32-bit naturals.
A string that does not parse as a dotted quad raises `ValueError` in the
source (modelled as `none`); the middleware catches that and treats the
address as non-local. -/

/-- One octet of a dotted-quad IPv4 literal: one to three digits, value at
most 255, no leading zero (as enforced by `ipaddress.ip_address`). -/
def parseOctet (s : String) : Option Nat :=
  let cs := s.data
  if cs.length == 0 || cs.length > 3 || !(cs.all Char.isDigit)
      || (cs.length > 1 && cs.headD '0' == '0') then
    none
  else if natOfDigits cs ≤ 255 then
    some (natOfDigits cs)
  else
    none

/-- Dotted-quad IPv4 literal to its 32-bit numeric value. -/
def parseIPv4 (s : String) : Option Nat :=
  match (pySplit s '.').mapM parseOctet with
  | some [a, b, c, d] => some (((a * 256 + b) * 256 + c) * 256 + d)
  | _ => none

/-- `ZIMBABWE_IP_RANGES`: each entry is (network prefix value, prefix
length): 154.72.0.0/16, 197.211.0.0/16, 105.112.0.0/12. -/
def zimbabwe_ip_ranges : List (Nat × Nat) :=
  [(154 * 256 + 72, 16), (197 * 256 + 211, 16), (105 * 16 + 7, 12)]

/-- Membership of a 32-bit address in one CIDR range. -/
def inCidr (ip : Nat) (r : Nat × Nat) : Bool :=
  ip / 2 ^ (32 - r.2) == r.1

/-- The middleware loop over `ZIMBABWE_IP_RANGES`. -/
def isZimIp (ip : Nat) : Bool :=
  zimbabwe_ip_ranges.any (inCidr ip)

/-- Classification of the client-IP string: parse it, test the ranges; a
parse failure (`ValueError`) is caught by the middleware and yields the
non-local tier. -/
def classifyIp (ipStr : String) : Bool :=
  match parseIPv4 ipStr with
  | some ip => isZimIp ip
  | none => false

/-! ## Client IP extraction (`get_client_ip`) -/

/-- `get_client_ip`: first comma-separated entry of `X-Forwarded-For`
(stripped) when that header is truthy in Python (present AND non-empty),
else `REMOTE_ADDR`. -/
def get_client_ip (xff : Option String) (remote : String) : String :=
  match xff with
  | some s => if s = "" then remote else pyStrip ((pySplit s ',').headD "")
  | none => remote

/-! ## The rate-limit counter step (`process_request`) -/

/-- HTTP response as seen by the caller: status code plus the pairs of the
JSON body. -/
structure HttpResponse where
  status : Nat
  body : List (String × String)
deriving DecidableEq, Repr

def zimLimitMsg : String :=
  "Rate limit exceeded for this region. Please try again later."

def globalLimitMsg : String :=
  "Too many requests. Please try again later."

/-- Tier threshold: 50 for the local-region (Zimbabwe) tier, 100 otherwise. -/
def tierLimit (isZim : Bool) : Nat :=
  if isZim then 50 else 100

/-- The cache key built by `process_request` for the chosen tier. -/
def rateLimitKey (isZim : Bool) (ip : String) : String :=
  if isZim then "rate_limit_zim:" ++ ip else "rate_limit_global:" ++ ip

/-- One pass of the counting branch of `process_request` for a key whose
window currently holds `count` (`cache.get_or_set(key, 0, 60)` returned
`count`).  Returns the rate-limit response (`none` = request admitted,
processing continues) and the counter value after the call
(`cache.incr` runs only on the admit path). -/
def admitStep (isZim : Bool) (count : Nat) : Option HttpResponse × Nat :=
  if count ≥ tierLimit isZim then
    (some { status := 429,
            body := [("error", if isZim then zimLimitMsg else globalLimitMsg)] },
     count)
  else
    (none, count + 1)

/-- A sequence of `n` requests from the same client inside one 60-second
window, starting from counter value `count`. -/
def runWindow (isZim : Bool) : Nat → Nat → List (Option HttpResponse)
  | 0, _ => []
  | n + 1, count =>
    let r := admitStep isZim count
    r.1 :: runWindow isZim n r.2

/-- The same window run, keyed by the numeric client IP the way
`process_request` classifies it. -/
def runWindowIp (ip : Nat) (n count : Nat) : List (Option HttpResponse) :=
  runWindow (isZimIp ip) n count

/-- C1: within a single 60-second window, every local-region (Zimbabwe
range) client IP has its first 50 requests admitted and its 51st rejected
with a 429 response, and every non-local IP has its first 100 requests
admitted and its 101st rejected with a 429 response. -/
theorem C1_window_thresholds (ip : Nat) :
    (isZimIp ip = true →
      runWindowIp ip 51 0 =
        List.replicate 50 none ++
          [some { status := 429, body := [("error", zimLimitMsg)] }]) ∧
    (isZimIp ip = false →
      runWindowIp ip 101 0 =
        List.replicate 100 none ++
          [some { status := 429, body := [("error", globalLimitMsg)] }]) := by
  constructor <;> intro h <;> (unfold runWindowIp; rw [h]) <;> decide

/-- Witness for C1 at the local-region address 154.72.0.1 and the
non-local address 192.0.2.1. -/
theorem C1_window_thresholds_witness :
    (isZimIp 2588409857 = true ∧
      runWindowIp 2588409857 51 0 =
        List.replicate 50 none ++
          [some { status := 429, body := [("error", zimLimitMsg)] }]) ∧
    (isZimIp 3221225985 = false ∧
      runWindowIp 3221225985 101 0 =
        List.replicate 100 none ++
          [some { status := 429, body := [("error", globalLimitMsg)] }]) :=
  ⟨⟨by decide, (C1_window_thresholds 2588409857).1 (by decide)⟩,
   ⟨by decide, (C1_window_thresholds 3221225985).2 (by decide)⟩⟩

/-! ## Exception-level model of `process_request` (for C5)

`process_request` wraps a try/except only around `ipaddress.ip_address(ip)`
(handled inside `classifyIp`); the calls to `cache.get_or_set` and
`cache.incr` are NOT guarded, so a fault of the counter store propagates
to the caller.  A fault oracle says which cache call (if any) would raise. -/

inductive CacheFault where
  | ok
  | failGetOrSet
  | failIncr
deriving DecidableEq, Repr

def getOrSetFaultMsg : String := "cache backend failure in get_or_set"
def incrFaultMsg : String := "cache backend failure in incr"

/-- `process_request` for a single request whose client-IP string is
`ipStr` and whose key currently counts `count`, under fault oracle
`fault`.  `Except.error` models an uncaught Python exception reaching the
middleware's caller; the control flow mirrors the source: get-or-set
first (unguarded), then the threshold test, then the increment
(unguarded). -/
def process_request (ipStr : String) (fault : CacheFault) (count : Nat) :
    Except String (Option HttpResponse × Nat) :=
  if fault = CacheFault.failGetOrSet then
    .error getOrSetFaultMsg
  else if count ≥ tierLimit (classifyIp ipStr) then
    .ok (some { status := 429,
                body := [("error",
                  if classifyIp ipStr then zimLimitMsg else globalLimitMsg)] },
         count)
  else if fault = CacheFault.failIncr then
    .error incrFaultMsg
  else
    .ok (none, count + 1)

/-- C5 counterexample: a fault of the counter store during the
fetch-or-init call propagates as an exception instead of admitting the
request, refuting the claim that any internal fault degrades to
fail-open. -/
theorem C5_counterexample :
    process_request "203.0.113.9" CacheFault.failGetOrSet 0 =
      Except.error getOrSetFaultMsg ∧
    process_request "203.0.113.9" CacheFault.failGetOrSet 0 ≠
      Except.ok (admitStep false 0) :=
  ⟨rfl, fun h => Except.noConfusion h⟩

/-- C5 amended: the limiter tolerates only an invalid-format client IP
(the `ValueError` from IP parsing is caught and the request proceeds under
the general tier); a fault of the counter store in the fetch-or-init call
or in the increment propagates as an exception rather than admitting the
request. -/
theorem C5_fail_open_scope (ipStr : String) (count : Nat) :
    process_request ipStr CacheFault.ok count =
      Except.ok (admitStep (classifyIp ipStr) count) ∧
    (parseIPv4 ipStr = none →
      process_request ipStr CacheFault.ok count =
        Except.ok (admitStep false count)) ∧
    process_request ipStr CacheFault.failGetOrSet count =
      Except.error getOrSetFaultMsg ∧
    (count < tierLimit (classifyIp ipStr) →
      process_request ipStr CacheFault.failIncr count =
        Except.error incrFaultMsg) := by
  have hok : process_request ipStr CacheFault.ok count =
      Except.ok (admitStep (classifyIp ipStr) count) := by
    unfold process_request admitStep
    rw [if_neg (by decide : ¬ (CacheFault.ok = CacheFault.failGetOrSet))]
    by_cases hc : count ≥ tierLimit (classifyIp ipStr)
    · rw [if_pos hc, if_pos hc]
    · rw [if_neg hc, if_neg hc,
        if_neg (by decide : ¬ (CacheFault.ok = CacheFault.failIncr))]
  have hcl : parseIPv4 ipStr = none → classifyIp ipStr = false := by
    intro h
    unfold classifyIp
    rw [h]
  refine ⟨hok, fun h => ?_, ?_, fun h => ?_⟩
  · rw [hok, hcl h]
  · unfold process_request
    rw [if_pos rfl]
  · unfold process_request
    rw [if_neg (by decide : ¬ (CacheFault.failIncr = CacheFault.failGetOrSet)),
      if_neg (Nat.not_le.mpr h), if_pos rfl]

/-- Witness for C5 amended at the unparseable IP string and count 0. -/
theorem C5_fail_open_scope_witness :
    process_request "not-an-ip" CacheFault.ok 0 =
      Except.ok (admitStep false 0) ∧
    process_request "not-an-ip" CacheFault.failGetOrSet 0 =
      Except.error getOrSetFaultMsg ∧
    process_request "not-an-ip" CacheFault.failIncr 0 =
      Except.error incrFaultMsg :=
  ⟨(C5_fail_open_scope "not-an-ip" 0).2.1 (by decide),
   (C5_fail_open_scope "not-an-ip" 0).2.2.1,
   (C5_fail_open_scope "not-an-ip" 0).2.2.2 (by decide)⟩

/-! ## C10: the source of the client IP -/

/-- C10 counterexample: with `X-Forwarded-For` present but empty, the code
falls back to `REMOTE_ADDR` (Python truthiness), whereas the claim says
the first comma-separated entry of the header (the empty string) would be
used whenever the header is present. -/
theorem C10_counterexample :
    get_client_ip (some "") "203.0.113.7" = "203.0.113.7" ∧
    pyStrip ((pySplit "" ',').headD "") = "" ∧
    "203.0.113.7" ≠ "" := by
  decide

/-- C10 amended: the client IP used for tier classification and for the
counter key is the first comma-separated entry (stripped) of
`X-Forwarded-For` whenever that header is present and non-empty — so the
remote address is then irrelevant and a caller-supplied header value picks
the tier and the key; the connection's remote address is used only when
the header is absent or empty. -/
theorem C10_client_ip_source (s remote remote2 : String) :
    (s ≠ "" →
      get_client_ip (some s) remote = pyStrip ((pySplit s ',').headD "") ∧
      get_client_ip (some s) remote = get_client_ip (some s) remote2 ∧
      rateLimitKey (classifyIp (get_client_ip (some s) remote))
          (get_client_ip (some s) remote) =
        rateLimitKey (classifyIp (pyStrip ((pySplit s ',').headD "")))
          (pyStrip ((pySplit s ',').headD ""))) ∧
    get_client_ip none remote = remote ∧
    get_client_ip (some "") remote = remote := by
  refine ⟨?_, rfl, rfl⟩
  intro h
  have hval : get_client_ip (some s) remote = pyStrip ((pySplit s ',').headD "") := by
    show (if s = "" then remote else pyStrip ((pySplit s ',').headD "")) = _
    rw [if_neg h]
  have hval2 : get_client_ip (some s) remote2 = pyStrip ((pySplit s ',').headD "") := by
    show (if s = "" then remote2 else pyStrip ((pySplit s ',').headD "")) = _
    rw [if_neg h]
  refine ⟨hval, hval.trans hval2.symm, ?_⟩
  rw [hval]

/-- Witness for C10 amended: a spoofed header carrying a local-region
address in front of the real remote address. -/
theorem C10_client_ip_source_witness :
    get_client_ip (some "154.72.0.1, 10.0.0.8") "192.0.2.44" = "154.72.0.1" ∧
    get_client_ip (some "154.72.0.1, 10.0.0.8") "192.0.2.44" =
      get_client_ip (some "154.72.0.1, 10.0.0.8") "198.51.100.3" ∧
    get_client_ip none "192.0.2.44" = "192.0.2.44" := by
  have h := C10_client_ip_source "154.72.0.1, 10.0.0.8" "192.0.2.44" "198.51.100.3"
  have h1 := h.1 (by decide)
  exact ⟨by rw [h1.1]; decide, h1.2.1, h.2.1⟩

/-! ## Route provider client (src/routing/services.py, `GoogleMapsService`)

The Google Maps directions response is modelled structurally: every
`.get(key, {})`/`.get(key, default)` access of the Python code becomes an
`Option` field access. -/

/-- A `{'value': ..., 'text': ...}` sub-object of a leg or step; either
key may be missing. -/
structure ValueText where
  value : Option Nat := none
  text : Option String := none
deriving DecidableEq, Repr

/-- A `{'points': ...}` polyline object. -/
structure PolyObj where
  points : Option String := none
deriving DecidableEq, Repr

/-- One step of a leg. -/
structure RouteStep where
  distance : Option ValueText := none
  duration : Option ValueText := none
  html_instructions : Option String := none
  polyline : Option PolyObj := none
deriving DecidableEq, Repr

/-- One leg of a raw route. -/
structure Leg where
  distance : Option ValueText := none
  duration : Option ValueText := none
  duration_in_traffic : Option ValueText := none
  steps : List RouteStep := []
deriving DecidableEq, Repr

/-- One raw route of the provider response; a missing `legs` key and an
empty legs list coincide in this model (both falsy in the source's
`if not route.get('legs') or not route['legs']`). -/
structure RouteRaw where
  legs : List Leg := []
  overview_polyline : Option PolyObj := none
deriving DecidableEq, Repr

/-- Normalized step as built by `_process_routes`. -/
structure StepSummary where
  distance : Option Nat
  duration : Option Nat
  instruction : Option String
  polyline : Option String
deriving DecidableEq, Repr

/-- Normalized route summary as built by `_process_routes`. -/
structure Summary where
  distance : Option String
  distance_value : Nat
  duration : Option String
  duration_value : Nat
  polyline : Option String
  steps : List StepSummary
deriving DecidableEq, Repr

/-- The per-step extraction of `_process_routes`. -/
def stepSummary (st : RouteStep) : StepSummary :=
  { distance := st.distance.bind ValueText.value
    duration := st.duration.bind ValueText.value
    instruction := st.html_instructions
    polyline := st.polyline.bind PolyObj.points }

/-- The summary `_process_routes` builds from a kept route and its first
leg. -/
def legSummary (route : RouteRaw) (leg : Leg) : Summary :=
  { distance := leg.distance.bind ValueText.text
    distance_value := (leg.distance.bind ValueText.value).getD 0
    duration := ((leg.duration_in_traffic.bind ValueText.text).orElse
      (fun _ => leg.duration.bind ValueText.text))
    duration_value := (leg.duration_in_traffic.bind ValueText.value).getD
      ((leg.duration.bind ValueText.value).getD 0)
    polyline := route.overview_polyline.bind PolyObj.points
    steps := leg.steps.map stepSummary }

/-- `_process_routes`: keep only routes with at least one leg (a legless
route is skipped with a logged warning), and summarize each kept route
from its first leg. -/
def process_routes (response : List RouteRaw) : List Summary :=
  response.filterMap fun r =>
    match r.legs with
    | [] => none
    | leg :: _ => some (legSummary r leg)

/-- `get_route`: the whole body runs inside `try/except Exception`; the
oracle `providerResult` is the outcome of the `client.directions` call
(`Except.error` = any transport/auth/parse exception it would raise).
Every failure path returns the empty list. -/
def get_route (providerResult : Except String (List RouteRaw)) : List Summary :=
  match providerResult with
  | .ok resp => process_routes resp
  | .error _ => []

/-- Duration preference written from the spec's words: the
traffic-adjusted duration when present, else the base duration, else 0. -/
def durationSpec (leg : Leg) : Nat :=
  match leg.duration_in_traffic.bind ValueText.value with
  | some v => v
  | none =>
    match leg.duration.bind ValueText.value with
    | some v => v
    | none => 0

theorem mem_process_routes {resp : List RouteRaw} {s : Summary} :
    s ∈ process_routes resp ↔
      ∃ r ∈ resp, ∃ leg rest, r.legs = leg :: rest ∧ s = legSummary r leg := by
  unfold process_routes
  rw [List.mem_filterMap]
  constructor
  · rintro ⟨r, hr, hf⟩
    cases h : r.legs with
    | nil =>
      rw [h] at hf
      exact absurd hf (by simp)
    | cons leg rest =>
      rw [h] at hf
      refine ⟨r, hr, leg, rest, h, ?_⟩
      simpa using hf.symm
  · rintro ⟨r, hr, leg, rest, hlegs, hs⟩
    refine ⟨r, hr, ?_⟩
    rw [hlegs]
    simpa using hs.symm

/-- C2: every summary kept by `_process_routes` takes its duration from
the first leg by the preference order "traffic-adjusted, else base,
else 0", and its distance is always the first leg's raw distance value
(default 0), with no traffic variant. -/
theorem C2_duration_distance_normalization (resp : List RouteRaw) (s : Summary)
    (h : s ∈ process_routes resp) :
    ∃ r ∈ resp, ∃ leg rest, r.legs = leg :: rest ∧
      s.duration_value = durationSpec leg ∧
      s.distance_value = (leg.distance.bind ValueText.value).getD 0 := by
  obtain ⟨r, hr, leg, rest, hlegs, hs⟩ := mem_process_routes.mp h
  subst hs
  refine ⟨r, hr, leg, rest, hlegs, ?_, rfl⟩
  unfold legSummary durationSpec
  cases leg.duration_in_traffic.bind ValueText.value with
  | some v => rfl
  | none =>
    cases leg.duration.bind ValueText.value with
    | some v => rfl
    | none => rfl

/-- The spec's concrete example: a leg carrying traffic-adjusted duration
650 and base duration 700. -/
def legExampleTraffic : Leg :=
  { duration := some { value := some 700 },
    duration_in_traffic := some { value := some 650 } }

def routeExampleTraffic : RouteRaw :=
  { legs := [legExampleTraffic] }

/-- Witness for C2 at the spec's example: traffic-duration 650 beats base
duration 700, so the kept summary carries duration 650. -/
theorem C2_duration_distance_normalization_witness :
    (∃ r ∈ [routeExampleTraffic], ∃ leg rest, r.legs = leg :: rest ∧
      (legSummary routeExampleTraffic legExampleTraffic).duration_value =
        durationSpec leg ∧
      (legSummary routeExampleTraffic legExampleTraffic).distance_value =
        (leg.distance.bind ValueText.value).getD 0) ∧
    (legSummary routeExampleTraffic legExampleTraffic).duration_value = 650 :=
  ⟨C2_duration_distance_normalization [routeExampleTraffic]
      (legSummary routeExampleTraffic legExampleTraffic) (by decide),
   by decide⟩

/-- C4: `get_route` never raises: a provider failure of any kind yields
the empty list, a successful response is handed to `_process_routes`, and
`_process_routes` keeps exactly the routes that have at least one leg
(legless routes are dropped). -/
theorem C4_get_route_error_containment :
    (∀ e : String, get_route (Except.error e) = []) ∧
    (∀ resp : List RouteRaw, get_route (Except.ok resp) = process_routes resp) ∧
    (∀ resp : List RouteRaw,
      (process_routes resp).length =
        (resp.filter (fun r => !r.legs.isEmpty)).length) := by
  refine ⟨fun _ => rfl, fun _ => rfl, fun resp => ?_⟩
  induction resp with
  | nil => rfl
  | cons r rest ih =>
    cases h : r.legs with
    | nil =>
      simp only [process_routes, List.filterMap_cons, List.filter_cons, h,
        List.isEmpty_nil, Bool.not_true, Bool.false_eq_true, if_false]
      exact ih
    | cons leg tail =>
      simp only [process_routes, List.filterMap_cons, List.filter_cons, h,
        List.isEmpty_cons, Bool.not_false, if_true, List.length_cons]
      exact congrArg Nat.succ ih

/-! ## Insight generator (src/ai_services/services.py, `GeminiService`)

`get_route_insights` calls the text-generation provider, then tries
`json.loads(response.text)`.  The provider call and the parse are
modelled by an oracle: either the call failed with a message, or it
returned `text` whose JSON parse result is `parsed` (`none` =
`json.JSONDecodeError`). -/

/-- JSON values, for the result of `json.loads`. -/
inductive JVal where
  | jnull
  | jbool (b : Bool)
  | jnum (n : Int)
  | jstr (s : String)
  | jarr (elems : List JVal)
  | jobj (fields : List (String × JVal))

/-- Lookup of a key in a parsed JSON object (Python dict access). -/
def jlookup (fields : List (String × JVal)) (k : String) : Option JVal :=
  match fields with
  | [] => none
  | (k2, v) :: rest => if k2 = k then some v else jlookup rest k

/-- Oracle for one Gemini call. -/
inductive GeminiCall where
  | success (text : String) (parsed : Option JVal)
  | failure (msg : String)

/-- The three shapes `get_route_insights` can return. -/
inductive InsightValue where
  | structuredJson (v : JVal)
  | rawWithError (raw_insight : String) (error : String)
  | unavailable (error : String)

/-- `get_route_insights`: on a successful parse the parsed value is
returned as-is; on `JSONDecodeError` a dict with the raw text and an
error marker; on any call failure an error dict. -/
def get_route_insights : GeminiCall → InsightValue
  | .failure msg => .unavailable ("AI insights currently unavailable: " ++ msg)
  | .success text parsed =>
    match parsed with
    | some v => .structuredJson v
    | none => .rawWithError text "AI response was not valid JSON."

/-- Required list-valued keys of the structured insight, from the spec's
schema. -/
def specRequiredListKeys : List String := ["alternatives", "tips", "kombi_stops"]

/-- Required string-valued keys of the structured insight, from the
spec's schema. -/
def specRequiredStringKeys : List String := ["weather_impact"]

/-- Modelled from the spec: the normalization the claim describes — in a
structured result every required key is present (a missing list was
replaced by an empty list, a missing string by an empty string). -/
def specNormalizedStructured (res : InsightValue) : Prop :=
  ∀ fields, res = InsightValue.structuredJson (JVal.jobj fields) →
    (∀ k ∈ specRequiredListKeys, jlookup fields k ≠ none) ∧
    (∀ k ∈ specRequiredStringKeys, jlookup fields k ≠ none)

/-- C3 counterexample: the provider text parses successfully as the empty
JSON object, yet the returned structured result still lacks the required
key "tips" — no defaulting of missing keys happens. -/
theorem C3_counterexample :
    ¬ specNormalizedStructured
        (get_route_insights (GeminiCall.success "{}" (some (JVal.jobj [])))) := by
  intro h
  have htips := (h [] rfl).1 "tips" (by simp [specRequiredListKeys])
  exact htips rfl

/-- C3 amended: on a successful parse the parsed data is returned
unchanged as the structured result (missing keys stay missing, no
defaults are inserted), and on a parse failure the raw text is preserved
with a fixed error marker. -/
theorem C3_parse_passthrough :
    (∀ (text : String) (v : JVal),
      get_route_insights (GeminiCall.success text (some v)) =
        InsightValue.structuredJson v) ∧
    (∀ text : String,
      get_route_insights (GeminiCall.success text none) =
        InsightValue.rawWithError text "AI response was not valid JSON.") :=
  ⟨fun _ _ => rfl, fun _ => rfl⟩

/-! ## Outward-facing error handlers (src/routing/views.py)

Each handler's `except` block, as a function of the string of the caught
exception (`str(e)`), to the client-visible HTTP response. -/

/-- `RouteOptimizationView.post` catch-all: 500 with a fixed message and
the exception text under "details". -/
def routeOptimizationCatch (e : String) : HttpResponse :=
  { status := 500
    body := [("error", "An error occurred during route optimization"),
             ("details", e)] }

/-- `WeatherView.post` catch of `requests.RequestException`: 502 with the
exception text as the error message. -/
def weatherCatch (e : String) : HttpResponse :=
  { status := 502
    body := [("error", e)] }

/-- `simulate_route` catch-all: 500 with the exception text appended to
the message. -/
def simulateRouteCatch (e : String) : HttpResponse :=
  { status := 500
    body := [("error", "An unexpected server error occurred: " ++ e),
             ("status", "error")] }

/-- C7 counterexample: two runs that differ only in the internal
exception produce different client-visible responses in all three
handlers, and the weather handler echoes the exception text verbatim —
there is no production-mode suppression of exception details. -/
theorem C7_counterexample :
    routeOptimizationCatch "ValueError: boom-a" ≠
      routeOptimizationCatch "KeyError: boom-b" ∧
    (weatherCatch "connection refused by upstream").body =
      [("error", "connection refused by upstream")] ∧
    simulateRouteCatch "division by zero" ≠ simulateRouteCatch "index out of range" := by
  refine ⟨?_, rfl, ?_⟩ <;> decide

/-- C7 amended: each handler returns a stable error-kind-appropriate
status code (500, 502, 500) and a stable leading message, but the caught
exception's text is echoed verbatim into the response body (a "details"
entry, the "error" value itself, or a message suffix) for every
exception, with no production-mode gating. -/
theorem C7_exception_echo (e : String) :
    (routeOptimizationCatch e).status = 500 ∧
    ("details", e) ∈ (routeOptimizationCatch e).body ∧
    ("error", "An error occurred during route optimization") ∈
      (routeOptimizationCatch e).body ∧
    (weatherCatch e).status = 502 ∧
    ("error", e) ∈ (weatherCatch e).body ∧
    (simulateRouteCatch e).status = 500 ∧
    ("error", "An unexpected server error occurred: " ++ e) ∈
      (simulateRouteCatch e).body := by
  refine ⟨rfl, ?_, ?_, rfl, ?_, rfl, ?_⟩ <;> simp [routeOptimizationCatch,
    weatherCatch, simulateRouteCatch]

/-! ## GeoPoint parsing and formatting (src/routing/serializers.py,
`PointField`)

Python floats are modelled by rationals; `float(s)` restricted to plain
decimal literals (optional sign, digits, optional fractional part,
surrounding whitespace) is `parseDecimal`. -/

/-- A GEOS `Point`: `x` is the longitude, `y` the latitude, as in
`Point(lng, lat)`. -/
structure Pt where
  x : ℚ
  y : ℚ
deriving DecidableEq, Repr

/-- `float(s)` on an unsigned decimal literal: digits with an optional
fractional part ("7", "7.25", "7.", ".5"; not "" or "."). -/
def parseUnsignedDecimal (s : String) : Option ℚ :=
  match pySplit s '.' with
  | [ipart] =>
    if ipart.length > 0 && ipart.data.all Char.isDigit then
      some (natOfDigits ipart.data)
    else
      none
  | [ipart, fpart] =>
    if (ipart.length > 0 || fpart.length > 0) && ipart.data.all Char.isDigit
        && fpart.data.all Char.isDigit then
      some ((natOfDigits ipart.data : ℚ) +
        (natOfDigits fpart.data : ℚ) / (10 : ℚ) ^ fpart.data.length)
    else
      none
  | _ => none

/-- `float(s)` on a decimal literal with optional sign and surrounding
whitespace. -/
def parseDecimal (s : String) : Option ℚ :=
  let t := pyStrip s
  match t.data with
  | '-' :: rest => (parseUnsignedDecimal (String.mk rest)).map (fun q => -q)
  | '+' :: rest => parseUnsignedDecimal (String.mk rest)
  | _ => parseUnsignedDecimal t

/-- `PointField.to_internal_value`: split on the comma into exactly two
parts, convert both to floats, build `Point(lng, lat)`; any failure
raises `ValidationError` (`none`). -/
def to_internal_value (data : String) : Option Pt :=
  match pySplit data ',' with
  | [lat_str, lng_str] =>
    match parseDecimal lat_str, parseDecimal lng_str with
    | some lat, some lng => some { x := lng, y := lat }
    | _, _ => none
  | _ => none

/-- `PointField.to_representation` formats `"{obj.y},{obj.x}"`; the
numeric pair it denotes is (latitude, longitude). -/
def to_representation (p : Pt) : ℚ × ℚ :=
  (p.y, p.x)

/-- C8: for every valid "lat,lng" string (exactly one comma, both parts
decimal literals), parsing with `to_internal_value` then formatting with
`to_representation` returns the original (latitude, longitude) numeric
pair — exactly, hence within any floating-point tolerance. -/
theorem C8_parse_format_roundtrip (s lat_str lng_str : String) (lat lng : ℚ)
    (hsplit : pySplit s ',' = [lat_str, lng_str])
    (hlat : parseDecimal lat_str = some lat)
    (hlng : parseDecimal lng_str = some lng) :
    ∃ p : Pt, to_internal_value s = some p ∧ to_representation p = (lat, lng) := by
  refine ⟨{ x := lng, y := lat }, ?_, rfl⟩
  simp only [to_internal_value, hsplit, hlat, hlng]

/-- Witness for C8 at the string "-17.8248,31.053". -/
theorem C8_parse_format_roundtrip_witness :
    ∃ p : Pt, to_internal_value "-17.8248,31.053" = some p ∧
      to_representation p = (-(178248 / 10000 : ℚ), (31053 / 1000 : ℚ)) :=
  C8_parse_format_roundtrip "-17.8248,31.053" "-17.8248" "31.053"
    (-(178248 / 10000 : ℚ)) ((31053 / 1000 : ℚ))
    (by decide)
    (by
      show some (-(((17 : Nat) : ℚ) + ((8248 : Nat) : ℚ) / (10 : ℚ) ^ (4 : Nat))) =
        some (-(178248 / 10000 : ℚ))
      norm_num)
    (by
      show some (((31 : Nat) : ℚ) + ((53 : Nat) : ℚ) / (10 : ℚ) ^ (3 : Nat)) =
        some ((31053 / 1000 : ℚ))
      norm_num)

/-! ## Location anonymization and the optimize-route view
(src/routing/utils.py, src/routing/services.py, src/routing/views.py)

`random.uniform(-d, d)` is modelled by offset oracles; the
`settings.ANONYMIZE_LOCATIONS` flag is a Boolean input. -/

/-- `anonymize_location`: add the drawn offsets to latitude (`y`) and
longitude (`x`). -/
def anonymize_location (p : Pt) (lat_offset lon_offset : ℚ) : Pt :=
  { x := p.x + lon_offset, y := p.y + lat_offset }

/-- `GoogleMapsService._point_to_str`: the (lat, lng) pair serialized into
the outbound provider request — jittered when `ANONYMIZE_LOCATIONS` is
enabled, verbatim otherwise. -/
def point_to_str (anonymize_setting : Bool) (lat_offset lon_offset : ℚ)
    (p : Pt) : ℚ × ℚ :=
  if anonymize_setting then
    let a := anonymize_location p lat_offset lon_offset
    (a.y, a.x)
  else
    (p.y, p.x)

/-- A value held in `serializer.validated_data`: either a Python string or
a GEOS `Point`.  `PointField.to_internal_value` produces a `Point`, so
that is what the serializer hands the view. -/
inductive PyVal where
  | vstr (s : String)
  | vpoint (p : Pt)
deriving DecidableEq, Repr

def pointSplitErrMsg : String :=
  "AttributeError: Point object has no attribute split"

/-- Python `v.split(',')`: defined on strings; on a `Point` it raises
`AttributeError`. -/
def pyvalSplitComma : PyVal → Except String (List String)
  | .vstr s => .ok (pySplit s ',')
  | .vpoint _ => .error pointSplitErrMsg

/-- The view line `lat, lng = map(float, v.split(','))`: split, require
exactly two parts, convert both to floats. -/
def parseLatLngFromPyVal (v : PyVal) : Except String (ℚ × ℚ) :=
  match pyvalSplitComma v with
  | .error e => .error e
  | .ok parts =>
    match parts with
    | [a, b] =>
      match parseDecimal a, parseDecimal b with
      | some la, some lb => .ok (la, lb)
      | _, _ => .error "ValueError: could not convert string to float"
    | _ => .error "ValueError: unpack mismatch"

/-- Observable outcome of one `RouteOptimizationView.post` call: the HTTP
response, the origin/destination the view persists via
`Route.objects.create` (and later echoes through `RouteSerializer`), and
the coordinate pairs serialized into the outbound provider request. -/
structure PostOutcome where
  response : HttpResponse
  persisted : Option (Pt × Pt)
  outboundOrigin : Option (ℚ × ℚ)
  outboundDest : Option (ℚ × ℚ)
deriving DecidableEq, Repr

/-- Outcome of the view's catch-all `except` branch: 500 response, nothing
persisted, no outbound request made. -/
def errorOutcome (e : String) : PostOutcome :=
  { response := routeOptimizationCatch e
    persisted := none
    outboundOrigin := none
    outboundDest := none }

/-- The rest of `post` once origin/destination points exist: serialize
both points for the provider (through `_point_to_str`), fetch routes, 404
on an empty result, otherwise persist the submitted (unanonymized) points
and answer 200.  (The 200 body carries route data and no coordinates; the
stored points are what `RouteSerializer` later echoes.) -/
def routeOptimizationHappyPath (anonymize : Bool)
    (oLatOff oLonOff dLatOff dLonOff : ℚ)
    (origin_point destination_point : Pt)
    (provider : Except String (List RouteRaw)) : PostOutcome :=
  let outO := point_to_str anonymize oLatOff oLonOff origin_point
  let outD := point_to_str anonymize dLatOff dLonOff destination_point
  let routes := get_route provider
  if routes.isEmpty then
    { response :=
        { status := 404
          body := [("error", "No routes found for the given criteria.")] }
      persisted := none
      outboundOrigin := some outO
      outboundDest := some outD }
  else
    { response := { status := 200, body := [] }
      persisted := some (origin_point, destination_point)
      outboundOrigin := some outO
      outboundDest := some outD }

/-- `RouteOptimizationView.post` after successful serializer validation:
the body re-splits `validated_data['origin']` and
`validated_data['destination']`, and the whole body runs inside a
catch-all `except` producing the 500 response. -/
def routeOptimizationPost (anonymize : Bool)
    (oLatOff oLonOff dLatOff dLonOff : ℚ)
    (validated_origin validated_destination : PyVal)
    (provider : Except String (List RouteRaw)) : PostOutcome :=
  match parseLatLngFromPyVal validated_origin with
  | .error e => errorOutcome e
  | .ok (origin_lat, origin_lng) =>
    match parseLatLngFromPyVal validated_destination with
    | .error e => errorOutcome e
    | .ok (destination_lat, destination_lng) =>
      routeOptimizationHappyPath anonymize oLatOff oLonOff dLatOff dLonOff
        { x := origin_lng, y := origin_lat }
        { x := destination_lng, y := destination_lat } provider

/-- C6: because `PointField.to_internal_value` returns a `Point` while the
view calls `.split(',')` on the validated value, every request —
privacy mode or not — dies with `AttributeError` inside the catch-all:
the view answers 500, persists nothing, and never serializes any
coordinates (jittered or not) into an outbound provider request.  The
anonymization pipeline the claim describes is therefore unreachable. -/
theorem C6_view_point_split_bug (anonymize : Bool)
    (oLatOff oLonOff dLatOff dLonOff : ℚ) (op dp : Pt)
    (provider : Except String (List RouteRaw)) :
    routeOptimizationPost anonymize oLatOff oLonOff dLatOff dLonOff
        (PyVal.vpoint op) (PyVal.vpoint dp) provider =
      errorOutcome pointSplitErrMsg ∧
    (routeOptimizationPost anonymize oLatOff oLonOff dLatOff dLonOff
        (PyVal.vpoint op) (PyVal.vpoint dp) provider).persisted = none ∧
    (routeOptimizationPost anonymize oLatOff oLonOff dLatOff dLonOff
        (PyVal.vpoint op) (PyVal.vpoint dp) provider).outboundOrigin = none ∧
    (routeOptimizationPost anonymize oLatOff oLonOff dLatOff dLonOff
        (PyVal.vpoint op) (PyVal.vpoint dp) provider).response.status = 500 :=
  ⟨rfl, rfl, rfl, rfl⟩

/-! ## Concurrency of the rate-limit counter (for C9)

Each request handler (worker) performs two separate cache operations on
the shared per-key counter: the atomic fetch-or-init
(`cache.get_or_set(key, 0, 60)`) and, after a purely local threshold
check, the atomic increment (`cache.incr(key)`).  Other workers may run
between a worker's two operations.  A schedule is the list of worker
indices in the order their next operation executes; state is the shared
counter plus each worker's status. -/

inductive WStatus where
  | ready
  | got (c : Nat)
  | admitted
  | rejected
deriving DecidableEq, Repr

/-- The source's worker: first shared-state action reads the counter
(fetch-or-init), second action applies the local threshold test to the
value it read and, on the admit path, performs the atomic increment. -/
def wstep (limit counter : Nat) : WStatus → Nat × WStatus
  | .ready => (counter, .got counter)
  | .got c => if c ≥ limit then (counter, .rejected) else (counter + 1, .admitted)
  | s => (counter, s)

/-- The claim's worker: a single atomic increment-or-init operation that
tests the live counter and increments in one indivisible step. -/
def wstepAtomic (limit counter : Nat) : WStatus → Nat × WStatus
  | .ready =>
    if counter ≥ limit then (counter, .rejected) else (counter + 1, .admitted)
  | s => (counter, s)

/-- Run the next action of worker `i` (no-op for an index out of range or
a finished worker). -/
def schedStepWith (f : Nat → WStatus → Nat × WStatus)
    (st : Nat × List WStatus) (i : Nat) : Nat × List WStatus :=
  match st.2.get? i with
  | none => st
  | some w =>
    let r := f st.1 w
    (r.1, st.2.set i r.2)

/-- Run a whole schedule. -/
def runSchedWith (f : Nat → WStatus → Nat × WStatus) (sched : List Nat)
    (st : Nat × List WStatus) : Nat × List WStatus :=
  sched.foldl (schedStepWith f) st

/-- The source model under a schedule. -/
def runSched (limit : Nat) (sched : List Nat) (st : Nat × List WStatus) :
    Nat × List WStatus :=
  runSchedWith (wstep limit) sched st

/-- The claim-side atomic model under a schedule. -/
def runSchedAtomic (limit : Nat) (sched : List Nat) (st : Nat × List WStatus) :
    Nat × List WStatus :=
  runSchedWith (wstepAtomic limit) sched st

def isAdmitted : WStatus → Bool
  | .admitted => true
  | _ => false

/-- Number of workers whose request was admitted. -/
def countAdmitted (ws : List WStatus) : Nat :=
  ws.countP isAdmitted

/-- 51 workers on one fresh Zimbabwe-tier key (cap 50): workers 0..48 run
both their operations back to back, then workers 49 and 50 interleave —
both read 49, then both increment. -/
def overSched : List Nat :=
  ((List.range 49).map (fun i => [i, i])).flatten ++ [49, 50, 49, 50]

theorem countP_set_eq (p : WStatus → Bool) :
    ∀ (ws : List WStatus) (i : Nat) (v w : WStatus), ws.get? i = some v →
      (ws.set i w).countP p + (if p v then 1 else 0) =
        ws.countP p + (if p w then 1 else 0) := by
  intro ws
  induction ws with
  | nil =>
    intro i v w h
    simp at h
  | cons a t ih =>
    intro i v w h
    cases i with
    | zero =>
      simp only [List.get?] at h
      injection h with h
      subst h
      simp only [List.set, List.countP_cons]
      omega
    | succ j =>
      simp only [List.get?] at h
      have := ih j v w h
      simp only [List.set, List.countP_cons]
      omega

theorem schedStep_counter_eq_admitted (limit : Nat) (st : Nat × List WStatus)
    (i : Nat) (h : st.1 = countAdmitted st.2) :
    (schedStepWith (wstep limit) st i).1 =
      countAdmitted (schedStepWith (wstep limit) st i).2 := by
  unfold schedStepWith
  cases hg : st.2.get? i with
  | none => exact h
  | some w =>
    cases w with
    | ready =>
      have hc := countP_set_eq isAdmitted st.2 i WStatus.ready
        (WStatus.got st.1) hg
      simp [isAdmitted] at hc
      simp only [wstep, isAdmitted]
      unfold countAdmitted at h ⊢
      omega
    | got c =>
      by_cases hcl : c ≥ limit
      · have hc := countP_set_eq isAdmitted st.2 i (WStatus.got c)
          WStatus.rejected hg
        simp [isAdmitted] at hc
        simp only [wstep, if_pos hcl, isAdmitted]
        unfold countAdmitted at h ⊢
        omega
      · have hc := countP_set_eq isAdmitted st.2 i (WStatus.got c)
          WStatus.admitted hg
        simp [isAdmitted] at hc
        simp only [wstep, if_neg hcl, isAdmitted]
        unfold countAdmitted at h ⊢
        omega
    | admitted =>
      have hc := countP_set_eq isAdmitted st.2 i WStatus.admitted
        WStatus.admitted hg
      simp [isAdmitted] at hc
      simp only [wstep, isAdmitted]
      unfold countAdmitted at h ⊢
      omega
    | rejected =>
      have hc := countP_set_eq isAdmitted st.2 i WStatus.rejected
        WStatus.rejected hg
      simp [isAdmitted] at hc
      simp only [wstep, isAdmitted]
      unfold countAdmitted at h ⊢
      omega

theorem runSched_counter_eq_admitted (limit : Nat) (sched : List Nat) :
    ∀ st : Nat × List WStatus, st.1 = countAdmitted st.2 →
      (runSched limit sched st).1 = countAdmitted (runSched limit sched st).2 := by
  induction sched with
  | nil =>
    intro st h
    exact h
  | cons i rest ih =>
    intro st h
    exact ih (schedStepWith (wstep limit) st i)
      (schedStep_counter_eq_admitted limit st i h)

theorem countAdmitted_replicate_ready (n : Nat) :
    countAdmitted (List.replicate n WStatus.ready) = 0 := by
  induction n with
  | zero => rfl
  | succ m ih =>
    simp only [List.replicate, countAdmitted, List.countP_cons] at ih ⊢
    simp [isAdmitted, ih]

set_option maxRecDepth 100000 in
/-- C9 counterexample: on one fresh key with the local-region cap 50 and
51 concurrent requests, the interleaving `overSched` admits all 51 in the
source model (fetch-or-init and increment are separate operations with a
stale threshold check between them), while the single-atomic-operation
model the claim describes admits exactly 50 under the very same
schedule. -/
theorem C9_counterexample :
    countAdmitted (runSched 50 overSched (0, List.replicate 51 WStatus.ready)).2 = 51 ∧
    countAdmitted (runSchedAtomic 50 overSched (0, List.replicate 51 WStatus.ready)).2 = 50 := by
  constructor <;> decide

set_option maxRecDepth 100000 in
/-- C9 amended: the fetch-or-init and the increment are each individually
atomic, so under every schedule the shared counter equals the number of
admitted requests (no interleaving under- or over-counts, and
simultaneous first requests share the single counter cell); but because
the threshold check sits between two separate cache operations, an
interleaving can admit more requests than the cap — 51 of 51 concurrent
requests pass a cap of 50 under `overSched`. -/
theorem C9_counter_accuracy_but_stale_check :
    (∀ (limit : Nat) (sched : List Nat) (n : Nat),
      (runSched limit sched (0, List.replicate n WStatus.ready)).1 =
        countAdmitted (runSched limit sched (0, List.replicate n WStatus.ready)).2) ∧
    countAdmitted (runSched 50 overSched (0, List.replicate 51 WStatus.ready)).2 = 51 := by
  constructor
  · intro limit sched n
    exact runSched_counter_eq_admitted limit sched (0, List.replicate n WStatus.ready)
      (countAdmitted_replicate_ready n).symm
  · decide

end ARS
